import Mathlib

/-!
Verification of the Obscura MPC confidential-transfer circuits
(`src/arcis/src/lib.rs`, module `circuits`).

The four `#[instruction]` circuits are pure functions over unsigned 64-bit
integers.  We embed `u64` values as natural numbers: the only operations used
are comparisons (`>`, `>=`, `==`) and bitwise XOR, none of which can overflow,
and XOR of two values below `2^64` stays below `2^64`.  Each circuit's
`Enc<Shared, _>` wrapper and the `to_arcis` / `reveal` calls are the MPC
transport layer; after unwrapping, the computation is the plain function on
the struct fields embedded below.
-/

/-- `TransferAmount`: a confidential transfer's amount (in lamports) together
with the minimum balance required for validation (`lib.rs` lines 19-24). -/
structure TransferAmount where
  amount : Nat
  min_balance : Nat
  deriving Repr, DecidableEq

/-- `BalanceCheck`: a balance and an amount for the encrypted balance check
(`lib.rs` lines 68-71). -/
structure BalanceCheck where
  balance : Nat
  amount : Nat
  deriving Repr, DecidableEq

/-- `HiddenComparison`: two hidden values to be compared
(`lib.rs` lines 86-89). -/
structure HiddenComparison where
  value_a : Nat
  value_b : Nat
  deriving Repr, DecidableEq

/-- `validate_transfer` (`lib.rs` lines 40-48):
`is_valid = (data.amount > 0) && (data.min_balance >= data.amount)`. -/
def validate_transfer (t : TransferAmount) : Bool :=
  decide (t.amount > 0) && decide (t.min_balance ≥ t.amount)

/-- The fixed 64-bit masking constant `0xDEADBEEF_CAFEBABE` from
`lib.rs` line 60. -/
def maskConstant : Nat := 0xDEADBEEFCAFEBABE

/-- `compute_transfer_commitment` (`lib.rs` lines 55-62):
`commitment = data.amount ^ 0xDEADBEEF_CAFEBABE`. -/
def compute_transfer_commitment (t : TransferAmount) : Nat :=
  t.amount ^^^ maskConstant

/-- `check_sufficient_balance` (`lib.rs` lines 74-80):
`sufficient = data.balance >= data.amount`. -/
def check_sufficient_balance (c : BalanceCheck) : Bool :=
  decide (c.balance ≥ c.amount)

/-- `compare_hidden_values` (`lib.rs` lines 92-105): returns `0` for equal,
`1` for `value_a > value_b`, `2` for `value_b > value_a` (a `u8` result,
embedded as a natural number). -/
def compare_hidden_values (c : HiddenComparison) : Nat :=
  if c.value_a = c.value_b then 0
  else if c.value_a > c.value_b then 1
  else 2

/-- Alternative formulation of `compare_hidden_values` that tests
`value_a > value_b` before testing equality. -/
def compare_hidden_values_gt_first (c : HiddenComparison) : Nat :=
  if c.value_a > c.value_b then 1
  else if c.value_a = c.value_b then 0
  else 2

/-- Alternative formulation of `compare_hidden_values` that tests
`value_b > value_a` first. -/
def compare_hidden_values_lt_first (c : HiddenComparison) : Nat :=
  if c.value_b > c.value_a then 2
  else if c.value_a = c.value_b then 0
  else 1

/-- C1: `validate_transfer` returns `true` exactly when `amount > 0` and
`min_balance ≥ amount`, and `false` for every other combination. -/
theorem validate_transfer_correct (amount min_balance : Nat) :
    (validate_transfer ⟨amount, min_balance⟩ = true ↔
      0 < amount ∧ amount ≤ min_balance) ∧
    (validate_transfer ⟨amount, min_balance⟩ = false ↔
      amount = 0 ∨ min_balance < amount) := by
  constructor
  · simp [validate_transfer]
  · simp [validate_transfer]
    omega

/-- C2: `compare_hidden_values` returns `0` iff the values are equal, `1` iff
`value_a > value_b`, `2` iff `value_a < value_b`, and the result is always one
of the three codes. -/
theorem compare_hidden_values_correct (a b : Nat) :
    (compare_hidden_values ⟨a, b⟩ = 0 ↔ a = b) ∧
    (compare_hidden_values ⟨a, b⟩ = 1 ↔ a > b) ∧
    (compare_hidden_values ⟨a, b⟩ = 2 ↔ a < b) ∧
    (compare_hidden_values ⟨a, b⟩ = 0 ∨ compare_hidden_values ⟨a, b⟩ = 1 ∨
      compare_hidden_values ⟨a, b⟩ = 2) := by
  rcases Nat.lt_trichotomy a b with h | h | h
  · have e : compare_hidden_values ⟨a, b⟩ = 2 := by
      simp [compare_hidden_values, Nat.ne_of_lt h, Nat.lt_asymm h]
    rw [e]; omega
  · have e : compare_hidden_values ⟨a, b⟩ = 0 := by
      simp [compare_hidden_values, h]
    rw [e]; omega
  · have e : compare_hidden_values ⟨a, b⟩ = 1 := by
      simp [compare_hidden_values, Nat.ne_of_gt h, h]
    rw [e]; omega

/-- C3: `compute_transfer_commitment` returns `amount XOR 0xDEADBEEF_CAFEBABE`
and does not depend on `min_balance`. -/
theorem compute_transfer_commitment_spec (amount m m' : Nat) :
    compute_transfer_commitment ⟨amount, m⟩ = amount ^^^ 0xDEADBEEFCAFEBABE ∧
    compute_transfer_commitment ⟨amount, m⟩ =
      compute_transfer_commitment ⟨amount, m'⟩ :=
  ⟨rfl, rfl⟩

/-- C4: `check_sufficient_balance` returns `true` exactly when
`balance ≥ amount`; in particular it returns `false` on
`{balance := 50, amount := 100}`. -/
theorem check_sufficient_balance_correct (balance amount : Nat) :
    (check_sufficient_balance ⟨balance, amount⟩ = true ↔ amount ≤ balance) ∧
    check_sufficient_balance ⟨50, 100⟩ = false := by
  constructor
  · simp [check_sufficient_balance]
  · decide

/-- C5: every circuit is total over the `u64` domain: for any input whose
fields are below `2^64`, each circuit produces a well-defined output of the
declared type — a `Bool` for the two validation circuits, a value below
`2^64` (a `u64`) for the commitment, and a code at most `2` (a `u8`) for the
comparison. -/
theorem circuits_total (t : TransferAmount) (c : BalanceCheck)
    (x : HiddenComparison) (ht : t.amount < 2 ^ 64) :
    (validate_transfer t = true ∨ validate_transfer t = false) ∧
    compute_transfer_commitment t < 2 ^ 64 ∧
    (check_sufficient_balance c = true ∨ check_sufficient_balance c = false) ∧
    compare_hidden_values x ≤ 2 := by
  refine ⟨?_, ?_, ?_, ?_⟩
  · cases h : validate_transfer t
    · exact Or.inr rfl
    · exact Or.inl rfl
  · have hmask : maskConstant < 2 ^ 64 := by decide
    exact Nat.xor_lt_two_pow ht hmask
  · cases h : check_sufficient_balance c
    · exact Or.inr rfl
    · exact Or.inl rfl
  · unfold compare_hidden_values
    split <;> [omega; split <;> omega]

/-- C5 witness: the totality theorem instantiated at concrete inputs. -/
theorem circuits_total_witness :
    (TransferAmount.mk 5 10).amount < 2 ^ 64 ∧
    compute_transfer_commitment ⟨5, 10⟩ < 2 ^ 64 ∧
    compare_hidden_values ⟨3, 7⟩ ≤ 2 :=
  ⟨by decide,
   (circuits_total ⟨5, 10⟩ ⟨1, 2⟩ ⟨3, 7⟩ (by decide)).2.1,
   (circuits_total ⟨5, 10⟩ ⟨1, 2⟩ ⟨3, 7⟩ (by decide)).2.2.2⟩

/-- C6: every circuit is deterministic and stateless: invocations on inputs
with identical field values yield identical revealed outputs — the circuits
are functions of their input fields alone, with no hidden state. -/
theorem circuits_deterministic (t t' : TransferAmount) (c c' : BalanceCheck)
    (x x' : HiddenComparison)
    (h1 : t.amount = t'.amount) (h2 : t.min_balance = t'.min_balance)
    (h3 : c.balance = c'.balance) (h4 : c.amount = c'.amount)
    (h5 : x.value_a = x'.value_a) (h6 : x.value_b = x'.value_b) :
    validate_transfer t = validate_transfer t' ∧
    compute_transfer_commitment t = compute_transfer_commitment t' ∧
    check_sufficient_balance c = check_sufficient_balance c' ∧
    compare_hidden_values x = compare_hidden_values x' := by
  obtain ⟨ta, tm⟩ := t
  obtain ⟨ta', tm'⟩ := t'
  obtain ⟨cb, ca⟩ := c
  obtain ⟨cb', ca'⟩ := c'
  obtain ⟨xa, xb⟩ := x
  obtain ⟨xa', xb'⟩ := x'
  simp_all

/-- C6 witness: determinism instantiated at concrete inputs. -/
theorem circuits_deterministic_witness :
    validate_transfer ⟨7, 9⟩ = validate_transfer ⟨7, 9⟩ ∧
    compute_transfer_commitment ⟨7, 9⟩ = compute_transfer_commitment ⟨7, 9⟩ ∧
    check_sufficient_balance ⟨8, 3⟩ = check_sufficient_balance ⟨8, 3⟩ ∧
    compare_hidden_values ⟨4, 4⟩ = compare_hidden_values ⟨4, 4⟩ :=
  circuits_deterministic ⟨7, 9⟩ ⟨7, 9⟩ ⟨8, 3⟩ ⟨8, 3⟩ ⟨4, 4⟩ ⟨4, 4⟩
    rfl rfl rfl rfl rfl rfl

/-- C7: the order of the checks in `compare_hidden_values` is immaterial:
testing `value_a > value_b` before equality, or testing `value_b > value_a`
first, computes the same function on every input pair. -/
theorem compare_hidden_values_order_immaterial (a b : Nat) :
    compare_hidden_values_gt_first ⟨a, b⟩ = compare_hidden_values ⟨a, b⟩ ∧
    compare_hidden_values_lt_first ⟨a, b⟩ = compare_hidden_values ⟨a, b⟩ := by
  rcases Nat.lt_trichotomy a b with h | h | h
  · have e : compare_hidden_values ⟨a, b⟩ = 2 := by
      simp [compare_hidden_values, Nat.ne_of_lt h, Nat.lt_asymm h]
    have e1 : compare_hidden_values_gt_first ⟨a, b⟩ = 2 := by
      simp [compare_hidden_values_gt_first, Nat.ne_of_lt h, Nat.lt_asymm h]
    have e2 : compare_hidden_values_lt_first ⟨a, b⟩ = 2 := by
      simp [compare_hidden_values_lt_first, h]
    rw [e, e1, e2]; omega
  · have e : compare_hidden_values ⟨a, b⟩ = 0 := by
      simp [compare_hidden_values, h]
    have e1 : compare_hidden_values_gt_first ⟨a, b⟩ = 0 := by
      simp [compare_hidden_values_gt_first, h]
    have e2 : compare_hidden_values_lt_first ⟨a, b⟩ = 0 := by
      simp [compare_hidden_values_lt_first, h]
    rw [e, e1, e2]; omega
  · have e : compare_hidden_values ⟨a, b⟩ = 1 := by
      simp [compare_hidden_values, Nat.ne_of_gt h, h]
    have e1 : compare_hidden_values_gt_first ⟨a, b⟩ = 1 := by
      simp [compare_hidden_values_gt_first, h]
    have e2 : compare_hidden_values_lt_first ⟨a, b⟩ = 1 := by
      simp [compare_hidden_values_lt_first, Nat.ne_of_gt h, Nat.lt_asymm h]
    rw [e, e1, e2]; omega

/-- C8: the commitment round-trips: XOR-ing the revealed commitment with the
public constant recovers the original amount (XOR with a fixed constant is an
involution). -/
theorem compute_transfer_commitment_reversible (amount min_balance : Nat) :
    compute_transfer_commitment ⟨amount, min_balance⟩ ^^^ 0xDEADBEEFCAFEBABE =
      amount := by
  show (amount ^^^ maskConstant) ^^^ 0xDEADBEEFCAFEBABE = amount
  rw [maskConstant, Nat.xor_assoc, Nat.xor_self, Nat.xor_zero]

/-- C9: `compare_hidden_values` is antisymmetric under swapping operands:
the swapped invocation returns `0` iff the original does, and returns `2`
iff the original returns `1`. -/
theorem compare_hidden_values_antisymm (a b : Nat) :
    (compare_hidden_values ⟨a, b⟩ = 0 ↔ compare_hidden_values ⟨b, a⟩ = 0) ∧
    (compare_hidden_values ⟨a, b⟩ = 1 ↔ compare_hidden_values ⟨b, a⟩ = 2) := by
  rcases Nat.lt_trichotomy a b with h | h | h
  · have e : compare_hidden_values ⟨a, b⟩ = 2 := by
      simp [compare_hidden_values, Nat.ne_of_lt h, Nat.lt_asymm h]
    have e' : compare_hidden_values ⟨b, a⟩ = 1 := by
      simp [compare_hidden_values, Nat.ne_of_gt h, h]
    rw [e, e']; omega
  · have e : compare_hidden_values ⟨a, b⟩ = 0 := by
      simp [compare_hidden_values, h]
    have e' : compare_hidden_values ⟨b, a⟩ = 0 := by
      simp [compare_hidden_values, h]
    rw [e, e']; omega
  · have e : compare_hidden_values ⟨a, b⟩ = 1 := by
      simp [compare_hidden_values, Nat.ne_of_gt h, h]
    have e' : compare_hidden_values ⟨b, a⟩ = 2 := by
      simp [compare_hidden_values, Nat.ne_of_lt h, Nat.lt_asymm h]
    rw [e, e']; omega

/-- C10: `validate_transfer` decomposes through `check_sufficient_balance`:
it equals the positivity test AND-ed with the balance check applied to
`{balance := min_balance, amount := amount}`. -/
theorem validate_transfer_decomposes (amount min_balance : Nat) :
    validate_transfer ⟨amount, min_balance⟩ =
      (decide (0 < amount) &&
        check_sufficient_balance ⟨min_balance, amount⟩) :=
  rfl
